import Mathlib

/-!
Verification of the coordinate-transformation pipeline of
`astronomy_tools.py` (star-map and satellite-tracking tool).

The pure values flowing through the script are embedded shallowly:

* geocoding results, ground positions, timezone lookups and the
  altitude test are embedded over `ℚ`/`ℤ` (every IEEE double the script
  manipulates is a rational, and the claims about these functions are
  about exact comparisons and data plumbing);
* the spherical-astronomy math (WGS84 site vectors, frame rotations,
  the stereographic projection) is embedded over `ℝ`.

The script delegates the numerically interesting steps to the skyfield
library, which is an external collaborator of the repository; where a
claim depends on such a step, the corresponding definition is modelled
from the specification's description of that step (each such definition
says so in its doc comment).  All remaining definitions are direct
translations of the functions in `src/astronomy_tools.py`.
-/

namespace AstronomyTools

/-- Result of geocoding an address: `get_longitude_latitude`
(lines 21-25) reads `results['lat']` and `results['lng']` from the
geocoder's JSON payload. -/
structure GeocodeResult where
  lat : ℚ
  lng : ℚ

/-- `get_longitude_latitude` (lines 21-25): despite its name, it returns
the pair `(results['lat'], results['lng'])` — latitude first. -/
def get_longitude_latitude (results : GeocodeResult) : ℚ × ℚ :=
  (results.lat, results.lng)

/-- A ground station on the WGS84 ellipsoid, as built by
`wgs84.latlon(latitude_degrees, longitude_degrees, elevation_m)`. -/
structure GeoPosition where
  latitude_degrees : ℚ
  longitude_degrees : ℚ
  elevation_m : ℚ

/-- The `wgs84.latlon` constructor: positional order is
`(latitude_degrees, longitude_degrees, elevation_m)`, and the elevation
defaults to `0` when omitted (both call sites in the script use `0`). -/
def wgs84_latlon (latitude_degrees longitude_degrees elevation_m : ℚ) : GeoPosition :=
  ⟨latitude_degrees, longitude_degrees, elevation_m⟩

/-- `get_bluffton` (lines 166-168): the tuple returned by
`get_longitude_latitude` is unpacked into variables *named*
`longitude, latitude` (in that order), and those variables are then
passed *positionally* to `wgs84.latlon`.  The first component of the
tuple (the geocoded latitude) therefore lands in the
`latitude_degrees` slot. -/
def get_bluffton (geo : GeocodeResult) : GeoPosition :=
  let longitude := (get_longitude_latitude geo).1
  let latitude := (get_longitude_latitude geo).2
  wgs84_latlon longitude latitude 0

/-- The observer built inside `format_star_data` (lines 56, 64): the
tuple is unpacked as `lat, long` and passed by keyword
(`latitude_degrees=lat, longitude_degrees=long`); elevation is the
default `0`. -/
def format_star_data_observer (geo : GeocodeResult) : GeoPosition :=
  let lat := (get_longitude_latitude geo).1
  let long := (get_longitude_latitude geo).2
  wgs84_latlon lat long 0

/-- A resolved timezone, reduced to the UTC offset (in minutes) it
applies to the given wall-clock datetime; the IANA database consulted
by `pytz` is external to the repository. -/
structure TimeZone where
  utcOffsetMinutes : ℤ

/-- The error taxonomy of the specification (§7), for the failure modes
exercised by the script: `pytz.timezone(None)` raising when
`timezone_at` finds nothing, and a pandas `.loc` lookup raising on a
label missing from the star table. -/
inductive AstronomyError where
  | timezoneResolutionError : AstronomyError
  | unresolvedEdgeReference : AstronomyError
deriving DecidableEq

/-- `get_utc_dt` (lines 29-38).  The naive local datetime (already
parsed, modelled as a minute count) is localized in the timezone that
`timezonefinder.timezone_at(lng=longitude, lat=latitude)` returns and
converted to UTC (`utc = local wall time - offset`); if no timezone is
found, `pytz.timezone(None)` raises, modelled as the specification's
`TimezoneResolutionError`.  The resolver is passed explicitly; the
source's second `astimezone(pytz.utc)` on an already-UTC value is the
identity and is dropped. -/
def get_utc_dt (timezone_at : ℚ → ℚ → Option TimeZone) (latitude longitude : ℚ)
    (formatted_date : ℤ) : Except AstronomyError ℤ :=
  match timezone_at longitude latitude with
  | none => Except.error AstronomyError.timezoneResolutionError
  | some local_tz => Except.ok (formatted_date - local_tz.utcOffsetMinutes)

/-- `is_viewable` (lines 207-211): takes the `(alt, az, distance)` tuple
produced by `get_position_data` and tests `position[0].degrees > 0`. -/
def is_viewable (position : ℚ × ℚ × ℚ) : Bool :=
  if position.1 > 0 then true else false

/-- The pandas label lookup `stars[['x','y']].loc[...]` used in
`draw_map` (lines 95-96): the star table is an association of catalog
identifiers to projected `(x, y)` columns. -/
def loc_lookup : List (ℕ × ℚ × ℚ) → ℕ → Option (ℚ × ℚ)
  | [], _ => none
  | (k, v) :: rest, ident => if k = ident then some v else loc_lookup rest ident

/-- Resolving a list of edge-endpoint identifiers to projected points,
as `stars[['x','y']].loc[edges_star1]` does in `draw_map` (lines
95-96): pandas raises on the first label absent from the index instead
of dropping the row; the raised error is the specification's
`UnresolvedEdgeReference` (§4.4, §7). -/
def loc_resolve (table : List (ℕ × ℚ × ℚ)) : List ℕ → Except AstronomyError (List (ℚ × ℚ))
  | [] => Except.ok []
  | i :: rest =>
    match loc_lookup table i with
    | none => Except.error AstronomyError.unresolvedEdgeReference
    | some p =>
      match loc_resolve table rest with
      | Except.error e => Except.error e
      | Except.ok ps => Except.ok (p :: ps)

noncomputable section

/-- A geocentric cartesian vector (kilometres or astronomical units;
the claims below are scale-independent). -/
structure Vec3 where
  x : ℝ
  y : ℝ
  z : ℝ

/-- Componentwise vector difference, as in `satellite - bluffton`
(line 191): the topocentric vector is the satellite's geocentric
position minus the observer's geocentric position. -/
def Vec3.sub (a b : Vec3) : Vec3 :=
  ⟨a.x - b.x, a.y - b.y, a.z - b.z⟩

/-- Squared euclidean length of a vector. -/
def Vec3.normSq (v : Vec3) : ℝ :=
  v.x ^ 2 + v.y ^ 2 + v.z ^ 2

/-- Euclidean length of a vector, the `distance` skyfield reports for a
topocentric position. -/
def Vec3.norm (v : Vec3) : ℝ :=
  Real.sqrt (Vec3.normSq v)

/-- Right-handed rotation of a vector about the z-axis by angle `θ`. -/
def rotZ (θ : ℝ) (v : Vec3) : Vec3 :=
  ⟨v.x * Real.cos θ + v.y * Real.sin θ, -(v.x * Real.sin θ) + v.y * Real.cos θ, v.z⟩

/-- Rotation of a vector about the y-axis by angle `θ`. -/
def rotY (θ : ℝ) (v : Vec3) : Vec3 :=
  ⟨v.x * Real.cos θ - v.z * Real.sin θ, v.y, v.x * Real.sin θ + v.z * Real.cos θ⟩

/-- WGS84 equatorial radius in metres (the ellipsoid used by
`wgs84.latlon`). -/
def wgs84_a : ℝ := 6378137

/-- WGS84 flattening. -/
def wgs84_f : ℝ := 1 / 298.257223563

/-- WGS84 squared eccentricity, `f * (2 - f)`. -/
def wgs84_e2 : ℝ := wgs84_f * (2 - wgs84_f)

/-- Modelled from the spec: radius of curvature in the prime vertical of
the WGS84 ellipsoid, the scale factor of the geodetic-to-cartesian
conversion performed inside `wgs84.latlon(...).at(t)` (the library
internals are outside `src/`; §4.2 fixes the elevation-0 geometry as
the ellipsoid at the given latitude/longitude). -/
def primeVerticalRadius (lat : ℝ) : ℝ :=
  wgs84_a / Real.sqrt (1 - wgs84_e2 * Real.sin lat ^ 2)

/-- Modelled from the spec: the Earth-fixed geocentric position of a
ground station at geodetic latitude `lat`, longitude `lon` (radians)
and elevation 0 on the WGS84 ellipsoid — the vector whose equatorial
RA/dec the script reads on line 66 (`observer.radec()`), the library
conversion being outside `src/`. -/
def sitePosition (lat lon : ℝ) : Vec3 :=
  ⟨primeVerticalRadius lat * Real.cos lat * Real.cos lon,
   primeVerticalRadius lat * Real.cos lat * Real.sin lon,
   primeVerticalRadius lat * (1 - wgs84_e2) * Real.sin lat⟩

/-- Modelled from the spec (§4.2): the observer's true zenith at
elevation 0, the unit normal of the ellipsoid at the given geodetic
latitude/longitude, in the same Earth-fixed frame. -/
def zenithDirection (lat lon : ℝ) : Vec3 :=
  ⟨Real.cos lat * Real.cos lon, Real.cos lat * Real.sin lon, Real.sin lat⟩

/-- Tangent of the declination of a vector: `z` over the length of the
equatorial-plane component. -/
def tanDec (v : Vec3) : ℝ :=
  v.z / Real.sqrt (v.x ^ 2 + v.y ^ 2)

/-- Modelled from the spec (§4.4): the standard stereographic
projection from the point antipodal to the center `(raC, decC)` onto
the tangent plane at the center, in equatorial coordinates (radians) —
the map built by `build_stereographic_projection(center)` on line 70,
the library internals being outside `src/`. -/
def stereographicProject (raC decC ra dec : ℝ) : ℝ × ℝ :=
  (2 * (Real.cos dec * Real.sin (ra - raC)) /
      (1 + Real.sin decC * Real.sin dec + Real.cos decC * Real.cos dec * Real.cos (ra - raC)),
   2 * (Real.cos decC * Real.sin dec - Real.sin decC * Real.cos dec * Real.cos (ra - raC)) /
      (1 + Real.sin decC * Real.sin dec + Real.cos decC * Real.cos dec * Real.cos (ra - raC)))

/-- One row of the hipparcos dataframe, as far as the projection step is
concerned: a catalog identifier, equatorial direction and magnitude. -/
structure StarEntry where
  id : ℕ
  ra : ℝ
  dec : ℝ
  magnitude : ℝ

/-- The projection step of `format_star_data` (lines 72-73):
`stars['x'], stars['y'] = projection(star_positions)` applies the
projection elementwise to the dataframe rows, in row order. -/
def projectStars (raC decC : ℝ) (stars : List StarEntry) : List (ℝ × ℝ) :=
  stars.map (fun s => stereographicProject raC decC s.ra s.dec)

/-- Modelled from the spec (§3 ObserverFrame): the rotation taking an
Earth-fixed equatorial vector into the observer's local horizon frame
(z towards the zenith), applied inside skyfield's `altaz()` and outside
`src/`. -/
def altazFrame (lat lon : ℝ) (v : Vec3) : Vec3 :=
  rotY (Real.pi / 2 - lat) (rotZ lon v)

/-- Modelled from the spec (§4.3): reading a horizon-frame vector back
as `(altitude, azimuth, distance)`; the altitude is the angle above the
horizontal plane, the distance the straight-line vector length.  (The
azimuth branch fixups of a full `atan2` are omitted; no claim under
test constrains the azimuth formula.) -/
def altazOf (w : Vec3) : ℝ × ℝ × ℝ :=
  (Real.arcsin (w.z / Vec3.norm w), Real.arctan (w.y / w.x), Vec3.norm w)

/-- `get_topographic_data` (lines 183-186): the function takes no
instant from its caller; it reads the wall clock (`ts.now()`) and
evaluates the position difference there.  The hidden clock reading is
made an explicit argument of the embedding. -/
def get_topographic_data (clockNow : ℝ) (difference : ℝ → Vec3) : Vec3 :=
  difference clockNow

/-- `get_position_data` (lines 190-195): forms
`difference = satellite - bluffton`, lets `get_topographic_data`
evaluate it at the wall-clock instant, and converts to
`(alt, az, distance)` in the observer's horizon frame.  The satellite
ephemeris and the observer are geocentric-position-valued functions of
time; `obsLat`/`obsLon` are the observer's frame angles. -/
def get_position_data (clockNow obsLat obsLon : ℝ)
    (satellite bluffton : ℝ → Vec3) : ℝ × ℝ × ℝ :=
  let difference : ℝ → Vec3 := fun t => Vec3.sub (satellite t) (bluffton t)
  let topo := get_topographic_data clockNow difference
  altazOf (altazFrame obsLat obsLon topo)

/-- A sample satellite ephemeris whose geocentric position moves with
time (as every real satellite's does). -/
def sampleSatellite : ℝ → Vec3 :=
  fun t => ⟨3 + t, 0, 4⟩

/-- A sample ground station, fixed at the frame origin. -/
def sampleObserver : ℝ → Vec3 :=
  fun _ => ⟨0, 0, 0⟩

end

/-- C3: for every altitude value, `is_viewable` returns true if and only
if the altitude is strictly greater than 0 degrees; in particular an
altitude of exactly 0 yields false. -/
theorem is_viewable_iff_pos_alt (position : ℚ × ℚ × ℚ) :
    (is_viewable position = true ↔ 0 < position.1)
    ∧ is_viewable (0, position.2.1, position.2.2) = false := by
  constructor
  · by_cases h : 0 < position.1 <;> simp [is_viewable, h]
  · simp [is_viewable]

/-- C9: the ground position used for satellite tracking
(`get_bluffton`) and the one used for the star map
(`format_star_data`) agree on the same geocoder output, with the
geocoded latitude in the latitude role, the geocoded longitude in the
longitude role, and elevation 0 — the swapped variable *names* inside
`get_bluffton` do not swap the *values*. -/
theorem bluffton_matches_star_map_observer (geo : GeocodeResult) :
    get_bluffton geo = format_star_data_observer geo
    ∧ (get_bluffton geo).latitude_degrees = geo.lat
    ∧ (get_bluffton geo).longitude_degrees = geo.lng
    ∧ (get_bluffton geo).elevation_m = 0 :=
  ⟨rfl, rfl, rfl, rfl⟩

/-- C5: whenever some edge-endpoint identifier is absent from the star
table, resolving the edge list to projected points fails with
`unresolvedEdgeReference`; no edge is silently dropped. -/
theorem loc_resolve_unresolved_edge (table : List (ℕ × ℚ × ℚ)) (edgeIds : List ℕ)
    (h : ∃ i ∈ edgeIds, loc_lookup table i = none) :
    loc_resolve table edgeIds = Except.error AstronomyError.unresolvedEdgeReference := by
  induction edgeIds with
  | nil =>
    obtain ⟨i, hi, _⟩ := h
    exact absurd hi (List.not_mem_nil i)
  | cons j rest ih =>
    obtain ⟨i, hi, hnone⟩ := h
    rcases List.mem_cons.mp hi with rfl | hmem
    · simp [loc_resolve, hnone]
    · cases hj : loc_lookup table j with
      | none => simp [loc_resolve, hj]
      | some p => simp [loc_resolve, hj, ih ⟨i, hmem, hnone⟩]

/-- Witness for C5: a one-row table and an edge endpoint `2` that the
table does not contain. -/
theorem loc_resolve_unresolved_edge_witness :
    (∃ i ∈ [2], loc_lookup [(1, (0, 0))] i = none)
    ∧ loc_resolve [(1, (0, 0))] [2] = Except.error AstronomyError.unresolvedEdgeReference :=
  ⟨⟨2, by simp, rfl⟩, loc_resolve_unresolved_edge _ _ ⟨2, by simp, rfl⟩⟩

/-- C6: when the timezone resolver finds no timezone for the
coordinates, `get_utc_dt` fails with `timezoneResolutionError` (no
default offset is substituted); when a timezone is found, it returns
the localized instant converted to UTC. -/
theorem get_utc_dt_policy (timezone_at : ℚ → ℚ → Option TimeZone)
    (latitude longitude : ℚ) (formatted_date : ℤ) :
    (timezone_at longitude latitude = none →
      get_utc_dt timezone_at latitude longitude formatted_date
        = Except.error AstronomyError.timezoneResolutionError)
    ∧ ∀ local_tz : TimeZone, timezone_at longitude latitude = some local_tz →
        get_utc_dt timezone_at latitude longitude formatted_date
          = Except.ok (formatted_date - local_tz.utcOffsetMinutes) := by
  constructor
  · intro h
    simp [get_utc_dt, h]
  · intro local_tz h
    simp [get_utc_dt, h]

/-- Witness for C6: an always-failing resolver propagates the error and
a resolver returning a +60 minute zone localizes minute 100 to UTC
minute 40. -/
theorem get_utc_dt_policy_witness :
    get_utc_dt (fun _ _ => none) 10 20 100
      = Except.error AstronomyError.timezoneResolutionError
    ∧ get_utc_dt (fun _ _ => some ⟨60⟩) 10 20 100 = Except.ok 40 := by
  constructor
  · exact (get_utc_dt_policy (fun _ _ => none) 10 20 100).1 rfl
  · have h := (get_utc_dt_policy (fun _ _ => some ⟨60⟩) 10 20 100).2 ⟨60⟩ rfl
    simpa using h

/-- C7: a star whose direction coincides with the projection center
projects to exactly `(0, 0)` (so in particular within any tolerance),
for every center. -/
theorem projection_center_maps_to_origin (raC decC : ℝ) :
    stereographicProject raC decC raC decC = (0, 0) := by
  unfold stereographicProject
  rw [sub_self, Real.sin_zero, Real.cos_zero]
  simp only [Prod.mk.injEq]
  constructor
  · rw [mul_zero, mul_zero, zero_div]
  · rw [show Real.cos decC * Real.sin decC - Real.sin decC * Real.cos decC * 1 = 0 by ring,
      mul_zero, zero_div]

/-- C8: projecting the star rows and then selecting any index set gives
the same points as selecting the rows first and projecting them — the
`i`-th projected point belongs to the `i`-th input row. -/
theorem projectStars_commutes_with_index_filter (raC decC : ℝ)
    (stars : List StarEntry) (idxs : List ℕ) :
    idxs.filterMap (fun i => (projectStars raC decC stars)[i]?)
      = projectStars raC decC (idxs.filterMap (fun i => stars[i]?)) := by
  induction idxs with
  | nil => rfl
  | cons j rest ih =>
    cases hj : stars[j]? with
    | none =>
      have hmap : (projectStars raC decC stars)[j]? = none := by
        simp [projectStars, List.getElem?_map, hj]
      simp only [List.filterMap_cons, hmap, hj]
      exact ih
    | some s =>
      have hmap : (projectStars raC decC stars)[j]?
          = some (stereographicProject raC decC s.ra s.dec) := by
        simp [projectStars, List.getElem?_map, hj]
      simp only [List.filterMap_cons, hmap, hj]
      rw [ih]
      rfl

/-- C10: the projection step is total over the whole catalog: the output
list has one `(x, y)` entry per input row (no star is dropped and no
input direction, the antipode of the center included, fails to produce
a value). -/
theorem projectStars_total (raC decC : ℝ) (stars : List StarEntry) :
    (projectStars raC decC stars).length = stars.length
    ∧ ∀ i : ℕ, (projectStars raC decC stars)[i]?
        = Option.map (fun s => stereographicProject raC decC s.ra s.dec) stars[i]? := by
  refine ⟨by simp [projectStars], fun i => ?_⟩
  simp [projectStars, List.getElem?_map]

theorem rotZ_normSq (θ : ℝ) (v : Vec3) : Vec3.normSq (rotZ θ v) = Vec3.normSq v := by
  have h := Real.sin_sq_add_cos_sq θ
  simp only [Vec3.normSq, rotZ]
  linear_combination (v.x ^ 2 + v.y ^ 2) * h

theorem rotY_normSq (θ : ℝ) (v : Vec3) : Vec3.normSq (rotY θ v) = Vec3.normSq v := by
  have h := Real.sin_sq_add_cos_sq θ
  simp only [Vec3.normSq, rotY]
  linear_combination (v.x ^ 2 + v.z ^ 2) * h

theorem altazFrame_norm (lat lon : ℝ) (v : Vec3) :
    Vec3.norm (altazFrame lat lon v) = Vec3.norm v := by
  unfold Vec3.norm altazFrame
  rw [rotY_normSq, rotZ_normSq]

/-- C4: the distance reported by the satellite position computation is
the euclidean norm of the vector difference `satellite - observer`
evaluated at the single instant of the computation (the horizon-frame
rotation does not change the length). -/
theorem get_position_data_distance (clockNow obsLat obsLon : ℝ)
    (satellite bluffton : ℝ → Vec3) :
    (get_position_data clockNow obsLat obsLon satellite bluffton).2.2
      = Vec3.norm (Vec3.sub (satellite clockNow) (bluffton clockNow)) := by
  simp only [get_position_data, get_topographic_data, altazOf]
  exact altazFrame_norm _ _ _

/-- Counterexample for C2: `get_position_data` is not a pure function
of its explicit inputs (satellite ephemeris and observer): with the
*same* explicit inputs, two different wall-clock readings (the hidden
input that `ts.now()` introduces in `get_topographic_data`) give
different reported distances. -/
theorem get_position_data_clock_dependent :
    (get_position_data 0 0 0 sampleSatellite sampleObserver).2.2
      ≠ (get_position_data 1 0 0 sampleSatellite sampleObserver).2.2 := by
  have h0 : (get_position_data 0 0 0 sampleSatellite sampleObserver).2.2
      = Real.sqrt 25 := by
    simp only [get_position_data, get_topographic_data, altazOf]
    rw [altazFrame_norm]
    simp only [sampleSatellite, sampleObserver, Vec3.sub, Vec3.norm, Vec3.normSq]
    norm_num
  have h1 : (get_position_data 1 0 0 sampleSatellite sampleObserver).2.2
      = Real.sqrt 32 := by
    simp only [get_position_data, get_topographic_data, altazOf]
    rw [altazFrame_norm]
    simp only [sampleSatellite, sampleObserver, Vec3.sub, Vec3.norm, Vec3.normSq]
    norm_num
  rw [h0, h1]
  exact ne_of_lt (Real.sqrt_lt_sqrt (by norm_num) (by norm_num))

/-- C2 (amended): the satellite transform is deterministic given the
wall-clock reading: the output depends only on the satellite and
observer geocentric positions evaluated at that single instant — in
particular the propagation instant and the observation instant
coincide. -/
theorem get_position_data_single_instant (clockNow obsLat obsLon : ℝ)
    (sat1 sat2 obs1 obs2 : ℝ → Vec3)
    (hsat : sat1 clockNow = sat2 clockNow) (hobs : obs1 clockNow = obs2 clockNow) :
    get_position_data clockNow obsLat obsLon sat1 obs1
      = get_position_data clockNow obsLat obsLon sat2 obs2 := by
  simp only [get_position_data, get_topographic_data]
  rw [hsat, hobs]

/-- Witness for the amended C2: a moving ephemeris and a constant one
that agree at clock reading 5 produce the same output there. -/
theorem get_position_data_single_instant_witness :
    (fun t : ℝ => Vec3.mk t 0 0) 5 = (fun _ : ℝ => Vec3.mk 5 0 0) 5
    ∧ sampleObserver 5 = sampleObserver 5
    ∧ get_position_data 5 0 0 (fun t : ℝ => Vec3.mk t 0 0) sampleObserver
        = get_position_data 5 0 0 (fun _ : ℝ => Vec3.mk 5 0 0) sampleObserver :=
  ⟨rfl, rfl, get_position_data_single_instant 5 0 0 _ _ _ _ rfl rfl⟩

theorem wgs84_e2_pos : 0 < wgs84_e2 := by
  norm_num [wgs84_e2, wgs84_f]

theorem wgs84_e2_lt_one : wgs84_e2 < 1 := by
  norm_num [wgs84_e2, wgs84_f]

theorem one_sub_e2_sin_sq_pos (lat : ℝ) : 0 < 1 - wgs84_e2 * Real.sin lat ^ 2 := by
  have hs : Real.sin lat ^ 2 ≤ 1 := Real.sin_sq_le_one lat
  nlinarith [wgs84_e2_pos, wgs84_e2_lt_one]

theorem primeVerticalRadius_pos (lat : ℝ) : 0 < primeVerticalRadius lat := by
  unfold primeVerticalRadius
  apply div_pos
  · norm_num [wgs84_a]
  · exact Real.sqrt_pos.mpr (one_sub_e2_sin_sq_pos lat)

theorem rotZ_sq_xy (θ : ℝ) (v : Vec3) :
    (rotZ θ v).x ^ 2 + (rotZ θ v).y ^ 2 = v.x ^ 2 + v.y ^ 2 := by
  have h := Real.sin_sq_add_cos_sq θ
  simp only [rotZ]
  linear_combination (v.x ^ 2 + v.y ^ 2) * h

/-- C1: in the Earth-fixed frame rotated by any earth-rotation angle
`θ` (the chosen instant), the direction whose RA/dec the script passes
to the projection builder — the geocentric direction of the observer's
site at elevation 0 — has the same right-ascension plane as the
observer's true zenith (its equatorial components are the zenith's
scaled by the positive factor `primeVerticalRadius lat`) and a
declination related to the zenith's by exactly the standard
geodetic-to-geocentric latitude correction
`tan δ = (1 - e²) · tan lat`. -/
theorem star_map_center_is_corrected_zenith (lat lon θ : ℝ) (hcos : 0 < Real.cos lat) :
    tanDec (rotZ θ (sitePosition lat lon)) = (1 - wgs84_e2) * Real.tan lat
    ∧ tanDec (rotZ θ (zenithDirection lat lon)) = Real.tan lat
    ∧ (rotZ θ (sitePosition lat lon)).x
        = primeVerticalRadius lat * (rotZ θ (zenithDirection lat lon)).x
    ∧ (rotZ θ (sitePosition lat lon)).y
        = primeVerticalRadius lat * (rotZ θ (zenithDirection lat lon)).y
    ∧ 0 < primeVerticalRadius lat := by
  have hNpos : 0 < primeVerticalRadius lat := primeVerticalRadius_pos lat
  have hNne : primeVerticalRadius lat ≠ 0 := ne_of_gt hNpos
  have hcosne : Real.cos lat ≠ 0 := ne_of_gt hcos
  have hlam := Real.sin_sq_add_cos_sq lon
  have hsite_xy : (rotZ θ (sitePosition lat lon)).x ^ 2 + (rotZ θ (sitePosition lat lon)).y ^ 2
      = (primeVerticalRadius lat * Real.cos lat) ^ 2 := by
    rw [rotZ_sq_xy]
    simp only [sitePosition]
    linear_combination (primeVerticalRadius lat * Real.cos lat) ^ 2 * hlam
  have hzen_xy : (rotZ θ (zenithDirection lat lon)).x ^ 2 + (rotZ θ (zenithDirection lat lon)).y ^ 2
      = Real.cos lat ^ 2 := by
    rw [rotZ_sq_xy]
    simp only [zenithDirection]
    linear_combination Real.cos lat ^ 2 * hlam
  refine ⟨?_, ?_, ?_, ?_, hNpos⟩
  · unfold tanDec
    rw [hsite_xy, Real.sqrt_sq (mul_nonneg hNpos.le hcos.le)]
    show primeVerticalRadius lat * (1 - wgs84_e2) * Real.sin lat
        / (primeVerticalRadius lat * Real.cos lat) = (1 - wgs84_e2) * Real.tan lat
    rw [Real.tan_eq_sin_div_cos]
    field_simp
    ring
  · unfold tanDec
    rw [hzen_xy, Real.sqrt_sq hcos.le]
    show Real.sin lat / Real.cos lat = Real.tan lat
    exact (Real.tan_eq_sin_div_cos lat).symm
  · simp only [rotZ, sitePosition, zenithDirection]
    ring
  · simp only [rotZ, sitePosition, zenithDirection]
    ring

/-- Witness for C1: the relation at latitude 0, longitude 0 and
earth-rotation angle 0. -/
theorem star_map_center_witness :
    0 < Real.cos 0
    ∧ (tanDec (rotZ 0 (sitePosition 0 0)) = (1 - wgs84_e2) * Real.tan 0
       ∧ tanDec (rotZ 0 (zenithDirection 0 0)) = Real.tan 0
       ∧ (rotZ 0 (sitePosition 0 0)).x
           = primeVerticalRadius 0 * (rotZ 0 (zenithDirection 0 0)).x
       ∧ (rotZ 0 (sitePosition 0 0)).y
           = primeVerticalRadius 0 * (rotZ 0 (zenithDirection 0 0)).y
       ∧ 0 < primeVerticalRadius 0) := by
  constructor
  · rw [Real.cos_zero]
    norm_num
  · exact star_map_center_is_corrected_zenith 0 0 0 (by rw [Real.cos_zero]; norm_num)

end AstronomyTools
